import Mathlib

/-!
# GLArea triangle demo: rotation matrix and GL call sequences

A shallow embedding of `src/main.cc`.

* `float` values are idealised as elements of a field `α`; the libm functions
  `cosf`, `sinf` and the constant `G_PI` are supplied through a `Trig α` record.
  The theorems instantiate `α := ℝ` with `Real.cos`, `Real.sin`, `Real.pi`.
* The array `float res[16]` is a function `Fin 16 → α`; an assignment
  `res[i] = v` is `Function.update res i v`.
-/

namespace GLAreaDemo

/-- The math-library functions and constant used by `compute_mvp`. -/
structure Trig (α : Type) where
  cosf : α → α
  sinf : α → α
  G_PI : α

/-- A `float[16]` array. -/
abbrev Floats16 (α : Type) := Fin 16 → α

/-- The function `static void compute_mvp(float *res, float phi, float theta, float psi)`,
main.cc lines 274-311. The argument `res` is the content of the array before the call,
the result its content on return. -/
def compute_mvp {α : Type} [Field α] (T : Trig α) (res : Floats16 α)
    (phi theta psi : α) : Floats16 α :=
  let x := phi * (T.G_PI / 180)
  let y := theta * (T.G_PI / 180)
  let z := psi * (T.G_PI / 180)
  let c1 := T.cosf x
  let s1 := T.sinf x
  let c2 := T.cosf y
  let s2 := T.sinf y
  let c3 := T.cosf z
  let s3 := T.sinf z
  let c3c2 := c3 * c2
  let s3c1 := s3 * c1
  let c3s2s1 := c3 * s2 * s1
  let s3s1 := s3 * s1
  let c3s2c1 := c3 * s2 * c1
  let s3c2 := s3 * c2
  let c3c1 := c3 * c1
  let s3s2s1 := s3 * s2 * s1
  let c3s1 := c3 * s1
  let s3s2c1 := s3 * s2 * c1
  let c2s1 := c2 * s1
  let c2c1 := c2 * c1
  let res := Function.update res 0 c3c2
  let res := Function.update res 4 (s3c1 + c3s2s1)
  let res := Function.update res 8 (s3s1 - c3s2c1)
  let res := Function.update res 12 0
  let res := Function.update res 1 (-s3c2)
  let res := Function.update res 5 (c3c1 - s3s2s1)
  let res := Function.update res 9 (c3s1 + s3s2c1)
  let res := Function.update res 13 0
  let res := Function.update res 2 s2
  let res := Function.update res 6 (-c2s1)
  let res := Function.update res 10 c2c1
  let res := Function.update res 14 0
  let res := Function.update res 3 0
  let res := Function.update res 7 0
  let res := Function.update res 11 0
  let res := Function.update res 15 1
  res

/-- Index of the element in row `row`, column `col` of a column-major 4x4 matrix. -/
def cm (row col : Fin 4) : Fin 16 := ⟨4 * col.val + row.val, by omega⟩

/-- The 16 floats read as a column-major 4x4 matrix. -/
def asMatrix {α : Type} (res : Floats16 α) : Matrix (Fin 4) (Fin 4) α :=
  Matrix.of fun row col => res (cm row col)

/-- The Z factor of the source comment (main.cc lines 303-305), for `psi` in degrees. -/
def factorZ {α : Type} [Field α] (T : Trig α) (psi : α) : Matrix (Fin 3) (Fin 3) α :=
  let c3 := T.cosf (psi * (T.G_PI / 180))
  let s3 := T.sinf (psi * (T.G_PI / 180))
  !![c3, s3, 0; -s3, c3, 0; 0, 0, 1]

/-- The Y factor of the source comment, for `theta` in degrees. -/
def factorY {α : Type} [Field α] (T : Trig α) (theta : α) : Matrix (Fin 3) (Fin 3) α :=
  let c2 := T.cosf (theta * (T.G_PI / 180))
  let s2 := T.sinf (theta * (T.G_PI / 180))
  !![c2, 0, -s2; 0, 1, 0; s2, 0, c2]

/-- The X factor of the source comment, for `phi` in degrees. -/
def factorX {α : Type} [Field α] (T : Trig α) (phi : α) : Matrix (Fin 3) (Fin 3) α :=
  let c1 := T.cosf (phi * (T.G_PI / 180))
  let s1 := T.sinf (phi * (T.G_PI / 180))
  !![1, 0, 0; 0, c1, s1; 0, -s1, c1]

/-- The 4x4 homogeneous extension of a 3x3 matrix: fourth row and column `(0,0,0,1)`. -/
def homogeneous {α : Type} [Zero α] [One α] (M : Matrix (Fin 3) (Fin 3) α) :
    Matrix (Fin 4) (Fin 4) α :=
  Matrix.of fun i j =>
    if h : i.val < 3 ∧ j.val < 3 then M ⟨i.val, h.1⟩ ⟨j.val, h.2⟩
    else if i = j then 1 else 0

/-- The upper-left 3x3 block of the 16 floats read as a column-major matrix. -/
def upperLeft {α : Type} (res : Floats16 α) : Matrix (Fin 3) (Fin 3) α :=
  Matrix.of fun i j => res (cm (Fin.castSucc i) (Fin.castSucc j))

/-- The closed-form rotation about X by `t` degrees, as the specification writes it:
rows `(1,0,0,0)`, `(0,cos t,-sin t,0)`, `(0,sin t,cos t,0)`, `(0,0,0,1)`. -/
def closedFormX {α : Type} [Field α] (T : Trig α) (t : α) : Matrix (Fin 4) (Fin 4) α :=
  let c := T.cosf (t * (T.G_PI / 180))
  let s := T.sinf (t * (T.G_PI / 180))
  !![1, 0, 0, 0; 0, c, -s, 0; 0, s, c, 0; 0, 0, 0, 1]

/-- The closed-form rotation about Y by `t` degrees, as the specification writes it:
rows `(cos t,0,sin t,0)`, `(0,1,0,0)`, `(-sin t,0,cos t,0)`, `(0,0,0,1)`. -/
def closedFormY {α : Type} [Field α] (T : Trig α) (t : α) : Matrix (Fin 4) (Fin 4) α :=
  let c := T.cosf (t * (T.G_PI / 180))
  let s := T.sinf (t * (T.G_PI / 180))
  !![c, 0, s, 0; 0, 1, 0, 0; -s, 0, c, 0; 0, 0, 0, 1]

/-- The closed-form rotation about Z by `t` degrees, as the specification writes it:
rows `(cos t,-sin t,0,0)`, `(sin t,cos t,0,0)`, `(0,0,1,0)`, `(0,0,0,1)`. -/
def closedFormZ {α : Type} [Field α] (T : Trig α) (t : α) : Matrix (Fin 4) (Fin 4) α :=
  let c := T.cosf (t * (T.G_PI / 180))
  let s := T.sinf (t * (T.G_PI / 180))
  !![c, -s, 0, 0; s, c, 0, 0; 0, 0, 1, 0; 0, 0, 0, 1]

/-! ## The OpenGL side

The OpenGL library, the resource lookup and the widget toolkit are external to the
program. What they answer is collected in a `Driver`; what the program asks of OpenGL is
recorded, call by call, in the `trace` of a `GLState`, which also keeps the bindings that
the calls of `draw_triangle` change. Output to `cerr` is not modelled. The one exception
that the program can raise itself, the `std::length_error` of the log buffers, is.
-/

/-- The axes, `enum { X_AXIS, Y_AXIS, Z_AXIS, N_AXIS }`, main.cc lines 19-25. -/
def X_AXIS : Nat := 0
def Y_AXIS : Nat := 1
def Z_AXIS : Nat := 2
def N_AXIS : Nat := 3

/-- The triangle, `static const GLfloat vertex_data[]`, main.cc lines 27-31. -/
def vertex_data {α : Type} [Field α] : List α :=
  [0, 1 / 2, 0, 1,
   1 / 2, -(366 / 1000), 0, 1,
   -(1 / 2), -(366 / 1000), 0, 1]

/-- The value of `sizeof(vertex_data)`: twelve 4-byte floats. -/
def sizeof_vertex_data : Nat := 12 * 4

/-! The OpenGL enumerants the program uses. Their header, `epoxy/gl.h`, is not part of the
repository; the values are those of the OpenGL registry. -/

def GL_FALSE : Nat := 0
def GL_TRUE : Nat := 1
def GL_TRIANGLES : Nat := 0x0004
def GL_FLOAT : Nat := 0x1406
def GL_COLOR_BUFFER_BIT : Nat := 0x4000
def GL_ARRAY_BUFFER : Nat := 0x8892
def GL_STATIC_DRAW : Nat := 0x88E4
def GL_FRAGMENT_SHADER : Nat := 0x8B30
def GL_VERTEX_SHADER : Nat := 0x8B31
def GL_COMPILE_STATUS : Nat := 0x8B81
def GL_LINK_STATUS : Nat := 0x8B82
def GL_INFO_LOG_LENGTH : Nat := 0x8B84

/-- Conversion of a `GLint` to `GLuint` (32 bits), as in `m_Mvp = glGetUniformLocation(..)`. -/
def toGLuint (i : Int) : Nat := (i % 2 ^ 32).toNat

/-- Conversion of a `GLuint` to `GLint` (32 bits, two's complement), as when `m_Mvp` is
passed to `glUniformMatrix4fv`. -/
def toGLint (n : Nat) : Int :=
  if n % 2 ^ 32 < 2 ^ 31 then ((n % 2 ^ 32 : Nat) : Int) else ((n % 2 ^ 32 : Nat) : Int) - 2 ^ 32

/-- One call of an OpenGL function, with its arguments and, for the functions that
answer, the value returned or written. -/
inductive GLCall (α : Type) where
  | ClearColor (r g b a : α)
  | Clear (mask : Nat)
  | Flush
  | GenVertexArrays (n : Nat) (name : Nat)
  | BindVertexArray (array : Nat)
  | GenBuffers (n : Nat) (name : Nat)
  | BindBuffer (target buffer : Nat)
  | BufferData (target size : Nat) (data : List α) (usage : Nat)
  | DeleteBuffers (n : Nat) (name : Nat)
  | CreateShader (type : Nat) (ret : Nat)
  | ShaderSource (shader count : Nat) (src : String)
  | CompileShader (shader : Nat)
  | GetShaderiv (shader pname : Nat) (out : Int)
  | GetShaderInfoLog (shader : Nat) (bufSize : Int)
  | DeleteShader (shader : Nat)
  | CreateProgram (ret : Nat)
  | AttachShader (program shader : Nat)
  | LinkProgram (program : Nat)
  | GetProgramiv (program pname : Nat) (out : Int)
  | GetProgramInfoLog (program : Nat) (bufSize : Int)
  | DeleteProgram (program : Nat)
  | GetUniformLocation (program : Nat) (name : String) (ret : Int)
  | DetachShader (program shader : Nat)
  | UseProgram (program : Nat)
  | UniformMatrix4fv (location : Int) (count transpose : Nat) (value : List α)
  | EnableVertexAttribArray (index : Nat)
  | VertexAttribPointer (index size type normalized stride pointer : Nat)
  | DrawArrays (mode first count : Nat)
  | DisableVertexAttribArray (index : Nat)

/-- The format given to a vertex attribute by `glVertexAttribPointer`, with the buffer
bound to `GL_ARRAY_BUFFER` at that moment. -/
structure AttribPointer where
  index : Nat
  size : Nat
  type : Nat
  normalized : Nat
  stride : Nat
  pointer : Nat
  buffer : Nat
  deriving DecidableEq, Repr

/-- What OpenGL sees at one `glDrawArrays`. -/
structure DrawRecord where
  mode : Nat
  first : Nat
  count : Nat
  program : Nat
  enabledAttribs : List Nat
  attribPointers : List AttribPointer
  deriving DecidableEq, Repr

/-- The OpenGL context as the program's calls change it. -/
structure GLState (α : Type) where
  trace : List (GLCall α)
  currentProgram : Nat
  arrayBufferBinding : Nat
  vertexArrayBinding : Nat
  enabledAttribs : List Nat
  attribPointers : List AttribPointer
  draws : List DrawRecord

/-- A context in which nothing was called yet: nothing bound, no attribute enabled. -/
def GLState.fresh {α : Type} : GLState α :=
  { trace := [], currentProgram := 0, arrayBufferBinding := 0, vertexArrayBinding := 0,
    enabledAttribs := [], attribPointers := [], draws := [] }

/-- The answers of the environment: OpenGL driver, resource bundle and widget. -/
structure Driver where
  /-- Whether `m_GLArea.throw_if_error()` throws a `Gdk::GLError`. -/
  context_error : Bool
  /-- The answer of `m_GLArea.get_context()->get_use_es()`. -/
  use_es : Bool
  /-- The bytes found by `Gio::Resource::lookup_data_global(path)`; `none` when null. -/
  lookup_data_global : String → Option String
  /-- The name written by `glGenVertexArrays`. -/
  genVertexArray : Nat
  /-- The name written by `glGenBuffers`. -/
  genBuffer : Nat
  /-- The handle returned by `glCreateShader(type)`. -/
  createShader : Nat → Nat
  /-- Whether a shader of the given type with the given source compiles. -/
  compiles : Nat → String → Bool
  /-- The `GL_INFO_LOG_LENGTH` of a shader of the given type. -/
  shaderLogLength : Nat → Int
  /-- The handle returned by `glCreateProgram()`. -/
  createProgram : Nat
  /-- Whether the program links. -/
  links : Bool
  /-- The `GL_INFO_LOG_LENGTH` of the program. -/
  programLogLength : Int
  /-- The value returned by `glGetUniformLocation(program, name)`. -/
  uniformLocation : String → Int

/-- Record a call. -/
def emit {α : Type} (c : GLCall α) (g : GLState α) : GLState α :=
  { g with trace := g.trace ++ [c] }

/-- The calls made between the states `g` and `g'`. -/
def callsSince {α : Type} (g g' : GLState α) : List (GLCall α) :=
  g'.trace.drop g.trace.length

/-- Call `glUseProgram(program)`: the program becomes current. -/
def glUseProgram {α : Type} (program : Nat) (g : GLState α) : GLState α :=
  { emit (.UseProgram program) g with currentProgram := program }

/-- Call `glBindBuffer(target, buffer)`: for `GL_ARRAY_BUFFER` the binding changes. -/
def glBindBuffer {α : Type} (target buffer : Nat) (g : GLState α) : GLState α :=
  { emit (.BindBuffer target buffer) g with
    arrayBufferBinding := if target = GL_ARRAY_BUFFER then buffer else g.arrayBufferBinding }

/-- Call `glBindVertexArray(array)`. -/
def glBindVertexArray {α : Type} (array : Nat) (g : GLState α) : GLState α :=
  { emit (.BindVertexArray array) g with vertexArrayBinding := array }

/-- Call `glEnableVertexAttribArray(index)`: the attribute joins the enabled ones. -/
def glEnableVertexAttribArray {α : Type} (index : Nat) (g : GLState α) : GLState α :=
  { emit (.EnableVertexAttribArray index) g with
    enabledAttribs := if index ∈ g.enabledAttribs then g.enabledAttribs
                      else index :: g.enabledAttribs }

/-- Call `glDisableVertexAttribArray(index)`: the attribute leaves the enabled ones. -/
def glDisableVertexAttribArray {α : Type} (index : Nat) (g : GLState α) : GLState α :=
  { emit (.DisableVertexAttribArray index) g with
    enabledAttribs := g.enabledAttribs.filter (fun i => i != index) }

/-- Call `glVertexAttribPointer`: the format of the attribute is replaced; it reads from
the buffer bound to `GL_ARRAY_BUFFER`. -/
def glVertexAttribPointer {α : Type} (index size type normalized stride pointer : Nat)
    (g : GLState α) : GLState α :=
  { emit (.VertexAttribPointer index size type normalized stride pointer) g with
    attribPointers :=
      { index := index, size := size, type := type, normalized := normalized,
        stride := stride, pointer := pointer, buffer := g.arrayBufferBinding }
      :: g.attribPointers.filter (fun p => p.index != index) }

/-- Call `glDrawArrays(mode, first, count)`: what the draw sees is kept in `draws`. -/
def glDrawArrays {α : Type} (mode first count : Nat) (g : GLState α) : GLState α :=
  { emit (.DrawArrays mode first count) g with
    draws := g.draws ++
      [{ mode := mode, first := first, count := count, program := g.currentProgram,
         enabledAttribs := g.enabledAttribs, attribPointers := g.attribPointers }] }

/-- Call `glDeleteBuffers(1, &name)`: a deleted buffer that is bound is unbound. -/
def glDeleteBuffers {α : Type} (n name : Nat) (g : GLState α) : GLState α :=
  { emit (.DeleteBuffers n name) g with
    arrayBufferBinding :=
      if name ≠ 0 ∧ g.arrayBufferBinding = name then 0 else g.arrayBufferBinding }

/-! ## The program -/

/-- The data members of `class Example_GLArea` that the OpenGL code reads and writes,
main.cc lines 45-50, and the number of `m_GLArea.queue_draw()` requests made. -/
structure Example_GLArea (α : Type) where
  m_Vaooooo : Nat
  m_Buffer : Nat
  m_Program : Nat
  m_Mvp : Nat
  m_RotationAngles : List α
  queued_draws : Nat

/-- The constructor, main.cc line 69: the handles are 0 and the angles are
`m_RotationAngles(N_AXIS, 0.0f)`. -/
def Example_GLArea.construct {α : Type} [Field α] : Example_GLArea α :=
  { m_Vaooooo := 0, m_Buffer := 0, m_Program := 0, m_Mvp := 0,
    m_RotationAngles := List.replicate N_AXIS 0, queued_draws := 0 }

/-- The slider callback `Example_GLArea::on_axis_value_change`, main.cc lines 98-102;
`value` is `adj->get_value()`. -/
def on_axis_value_change {α : Type} (axis : Nat) (value : α) (w : Example_GLArea α) :
    Example_GLArea α :=
  { w with m_RotationAngles := w.m_RotationAngles.set axis value,
           queued_draws := w.queued_draws + 1 }

/-- The method `Example_GLArea::init_buffers`, main.cc lines 164-173. -/
def init_buffers {α : Type} [Field α] (D : Driver) (w : Example_GLArea α) (g : GLState α) :
    Example_GLArea α × GLState α :=
  let w := { w with m_Vaooooo := D.genVertexArray }
  let g := emit (.GenVertexArrays 1 D.genVertexArray) g
  let g := glBindVertexArray w.m_Vaooooo g
  let w := { w with m_Buffer := D.genBuffer }
  let g := emit (.GenBuffers 1 D.genBuffer) g
  let g := glBindBuffer GL_ARRAY_BUFFER w.m_Buffer g
  let g := emit (.BufferData GL_ARRAY_BUFFER sizeof_vertex_data vertex_data GL_STATIC_DRAW) g
  let g := glBindBuffer GL_ARRAY_BUFFER 0 g
  (w, g)

/-- The value of an `int` expression: 32 bits, two's complement. -/
def toInt32 (i : Int) : Int := (i + 2 ^ 31) % 2 ^ 32 - 2 ^ 31

/-- Whether `string log_space(log_len+1, ' ')`, main.cc lines 188 and 254, throws
`std::length_error`: the `int` value `log_len+1` is converted to the unsigned `size_t`, and
a negative one becomes a length above `max_size()`. -/
def string_length_error (log_len : Int) : Bool := decide (toInt32 (log_len + 1) < 0)

/-- The state in which `init_shaders` or `realize` is left, and whether it was left by a
`std::length_error`; neither function catches it. -/
structure Run (α : Type) where
  widget : Example_GLArea α
  gl : GLState α
  thrown : Bool

/-- The function `static GLuint create_shader(int type, const char *src)`,
main.cc lines 175-201. The value is `none` when the function is left by the
`std::length_error` of line 188, before `glGetShaderInfoLog` and `glDeleteShader`. -/
def create_shader {α : Type} (D : Driver) (type : Nat) (src : String) (g : GLState α) :
    Option Nat × GLState α :=
  let shader := D.createShader type
  let g := emit (.CreateShader type shader) g
  let g := emit (.ShaderSource shader 1 src) g
  let g := emit (.CompileShader shader) g
  let status : Int := if D.compiles type src then GL_TRUE else GL_FALSE
  let g := emit (.GetShaderiv shader GL_COMPILE_STATUS status) g
  if status = GL_FALSE then
    let log_len := D.shaderLogLength type
    let g := emit (.GetShaderiv shader GL_INFO_LOG_LENGTH log_len) g
    if string_length_error log_len then
      (none, g)
    else
      let g := emit (.GetShaderInfoLog shader log_len) g
      let g := emit (.DeleteShader shader) g
      (some 0, g)
  else
    (some shader, g)

/-- The method `Example_GLArea::init_shaders`, main.cc lines 203-272. An exception of
`create_shader`, or the `std::length_error` of line 254, ends the method at that point. -/
def init_shaders {α : Type} (D : Driver) (vertex_path fragment_path : String)
    (w : Example_GLArea α) (g : GLState α) : Run α :=
  match D.lookup_data_global vertex_path with
  | none => ⟨{ w with m_Program := 0 }, g, false⟩
  | some vshader_bytes =>
    match create_shader D GL_VERTEX_SHADER vshader_bytes g with
    | (none, g) => ⟨w, g, true⟩
    | (some vertex, g) =>
    if vertex = 0 then
      ⟨{ w with m_Program := 0 }, g, false⟩
    else
      match D.lookup_data_global fragment_path with
      | none =>
        let g := emit (.DeleteShader vertex) g
        ⟨{ w with m_Program := 0 }, g, false⟩
      | some fshader_bytes =>
        match create_shader D GL_FRAGMENT_SHADER fshader_bytes g with
        | (none, g) => ⟨w, g, true⟩
        | (some fragment, g) =>
        if fragment = 0 then
          let g := emit (.DeleteShader vertex) g
          ⟨{ w with m_Program := 0 }, g, false⟩
        else
          let w := { w with m_Program := D.createProgram }
          let g := emit (.CreateProgram D.createProgram) g
          let g := emit (.AttachShader w.m_Program vertex) g
          let g := emit (.AttachShader w.m_Program fragment) g
          let g := emit (.LinkProgram w.m_Program) g
          let status : Int := if D.links then GL_TRUE else GL_FALSE
          let g := emit (.GetProgramiv w.m_Program GL_LINK_STATUS status) g
          if status = GL_FALSE then
            let log_len := D.programLogLength
            let g := emit (.GetProgramiv w.m_Program GL_INFO_LOG_LENGTH log_len) g
            if string_length_error log_len then
              ⟨w, g, true⟩
            else
              let g := emit (.GetProgramInfoLog w.m_Program log_len) g
              let g := emit (.DeleteProgram w.m_Program) g
              let w := { w with m_Program := 0 }
              -- lines 270-271, which follow both branches
              let g := emit (.DeleteShader vertex) g
              let g := emit (.DeleteShader fragment) g
              ⟨w, g, false⟩
          else
            let loc := D.uniformLocation "mvp"
            let g := emit (.GetUniformLocation w.m_Program "mvp" loc) g
            let w' := { w with m_Mvp := toGLuint loc }
            let g := emit (.DetachShader w.m_Program vertex) g
            let g := emit (.DetachShader w.m_Program fragment) g
            -- lines 270-271
            let g := emit (.DeleteShader vertex) g
            let g := emit (.DeleteShader fragment) g
            ⟨w', g, false⟩

/-- The method `Example_GLArea::draw_triangle`, main.cc lines 313-335. The local array
`float mvp[16]` starts as zeros here; `compute_mvp` overwrites all of it. -/
def draw_triangle {α : Type} [Field α] (T : Trig α) (w : Example_GLArea α) (g : GLState α) :
    GLState α :=
  let mvp : Floats16 α := fun _ => 0
  let mvp := compute_mvp T mvp
    (w.m_RotationAngles.getD X_AXIS 0)
    (w.m_RotationAngles.getD Y_AXIS 0)
    (w.m_RotationAngles.getD Z_AXIS 0)
  let g := glUseProgram w.m_Program g
  let g := emit (.UniformMatrix4fv (toGLint w.m_Mvp) 1 GL_FALSE (List.ofFn mvp)) g
  let g := glBindBuffer GL_ARRAY_BUFFER w.m_Buffer g
  let g := glEnableVertexAttribArray 0 g
  let g := glVertexAttribPointer 0 4 GL_FLOAT GL_FALSE 0 0 g
  let g := glDrawArrays GL_TRIANGLES 0 3 g
  let g := glDisableVertexAttribArray 0 g
  let g := glBindBuffer GL_ARRAY_BUFFER 0 g
  let g := glUseProgram 0 g
  g

/-- The method `Example_GLArea::realize`, main.cc lines 104-122. Its `catch` is for
`Gdk::GLError` only, so an exception of `init_shaders` leaves `realize` too. -/
def realize {α : Type} [Field α] (D : Driver) (w : Example_GLArea α) (g : GLState α) :
    Run α :=
  if D.context_error then
    ⟨w, g, false⟩
  else
    let (w, g) := init_buffers D w g
    let use_es := D.use_es
    let vertex_path := if use_es then "/glarea/v.glsl" else "/glarea/v.glsl"
    let fragment_path := if use_es then "/glarea/f.glsl" else "/glarea/f.glsl"
    init_shaders D vertex_path fragment_path w g

/-- The method `Example_GLArea::unrealize`, main.cc lines 124-140. -/
def unrealize {α : Type} (D : Driver) (w : Example_GLArea α) (g : GLState α) : GLState α :=
  if D.context_error then
    g
  else
    let g := glDeleteBuffers 1 w.m_Buffer g
    let g := emit (.DeleteProgram w.m_Program) g
    g

/-- The method `Example_GLArea::render`, main.cc lines 142-162: the value returned and
the OpenGL state afterwards. -/
def render {α : Type} [Field α] (D : Driver) (T : Trig α) (w : Example_GLArea α)
    (g : GLState α) : Bool × GLState α :=
  if D.context_error then
    (false, g)
  else
    let g := emit (.ClearColor (1 / 10) (1 / 10) (1 / 10) 1) g
    let g := emit (.Clear GL_COLOR_BUFFER_BIT) g
    let g := draw_triangle T w g
    let g := emit .Flush g
    (true, g)

/-! ## Observers of a call sequence -/

/-- Is the call a `glDrawArrays`? -/
def GLCall.isDraw {α : Type} : GLCall α → Bool
  | .DrawArrays _ _ _ => true
  | _ => false

/-- The handles returned by the `glCreateShader` calls of a call sequence, in order. -/
def createdShaders {α : Type} : List (GLCall α) → List Nat
  | [] => []
  | .CreateShader _ ret :: cs => ret :: createdShaders cs
  | _ :: cs => createdShaders cs

/-- The handles passed to the `glDeleteShader` calls of a call sequence, in order. -/
def deletedShaders {α : Type} : List (GLCall α) → List Nat
  | [] => []
  | .DeleteShader shader :: cs => shader :: deletedShaders cs
  | _ :: cs => deletedShaders cs

/-- The names passed to the `glDeleteBuffers` calls of a call sequence, in order. -/
def deletedBuffers {α : Type} : List (GLCall α) → List Nat
  | [] => []
  | .DeleteBuffers _ name :: cs => name :: deletedBuffers cs
  | _ :: cs => deletedBuffers cs

/-- The handles passed to the `glDeleteProgram` calls of a call sequence, in order. -/
def deletedPrograms {α : Type} : List (GLCall α) → List Nat
  | [] => []
  | .DeleteProgram program :: cs => program :: deletedPrograms cs
  | _ :: cs => deletedPrograms cs

/-- Is the call a `glEnableVertexAttribArray`? -/
def GLCall.isEnableAttrib {α : Type} : GLCall α → Bool
  | .EnableVertexAttribArray _ => true
  | _ => false

/-- The matrices uploaded by `glUniformMatrix4fv` in a call sequence, each with the
location and the transpose flag. -/
def uploads {α : Type} : List (GLCall α) → List (Int × Nat × List α)
  | [] => []
  | .UniformMatrix4fv loc _ tr v :: cs => (loc, tr, v) :: uploads cs
  | _ :: cs => uploads cs

/-! ## Concrete environments -/

/-- An environment in which everything succeeds: both sources are found, both shaders
compile, the program links and the uniform "mvp" is at location 7. -/
def workingDriver : Driver where
  context_error := false
  use_es := false
  lookup_data_global := fun path => some path
  genVertexArray := 1
  genBuffer := 2
  createShader := fun type => if type = GL_VERTEX_SHADER then 3 else 4
  compiles := fun _ _ => true
  shaderLogLength := fun _ => 0
  createProgram := 5
  links := true
  programLogLength := 0
  uniformLocation := fun _ => 7

/-- An environment in which the vertex shader compiles and the fragment shader does not. -/
def badFragmentDriver : Driver :=
  { workingDriver with
    compiles := fun type _ => decide (type = GL_VERTEX_SHADER)
    shaderLogLength := fun _ => 20 }

/-- An environment in which the vertex shader source is not found. -/
def missingVertexDriver : Driver :=
  { workingDriver with
    lookup_data_global := fun path => if path = "/glarea/v.glsl" then none else some path }

/-- An environment in which the fragment shader does not compile and the driver reports an
info log length of -2, which OpenGL rules out. -/
def negativeLogDriver : Driver :=
  { badFragmentDriver with shaderLogLength := fun _ => -2 }

/-- Whether every step of `init_shaders` succeeds in the environment `D`: both sources
are found, both shader objects are created and compile, and the program links. -/
def shadersSucceed (D : Driver) (vertex_path fragment_path : String) : Bool :=
  match D.lookup_data_global vertex_path, D.lookup_data_global fragment_path with
  | some vsrc, some fsrc =>
    D.compiles GL_VERTEX_SHADER vsrc && D.compiles GL_FRAGMENT_SHADER fsrc && D.links
      && D.createShader GL_VERTEX_SHADER != 0 && D.createShader GL_FRAGMENT_SHADER != 0
  | _, _ => false

/-! ## Theorems -/

/-- The 16 values that `compute_mvp` leaves in `res[0..15]`, listed by index. -/
theorem compute_mvp_values {α : Type} [Field α] (T : Trig α) (r : Floats16 α)
    (phi theta psi : α) :
    compute_mvp T r phi theta psi =
      (let c1 := T.cosf (phi * (T.G_PI / 180))
       let s1 := T.sinf (phi * (T.G_PI / 180))
       let c2 := T.cosf (theta * (T.G_PI / 180))
       let s2 := T.sinf (theta * (T.G_PI / 180))
       let c3 := T.cosf (psi * (T.G_PI / 180))
       let s3 := T.sinf (psi * (T.G_PI / 180))
       ![c3 * c2, -(s3 * c2), s2, 0,
         s3 * c1 + c3 * s2 * s1, c3 * c1 - s3 * s2 * s1, -(c2 * s1), 0,
         s3 * s1 - c3 * s2 * c1, c3 * s1 + s3 * s2 * c1, c2 * c1, 0,
         0, 0, 0, 1]) := by
  funext i
  fin_cases i <;> rfl

/-- Every one of the 16 elements is written: the result does not depend on the
previous content of `res`. -/
theorem compute_mvp_overwrites {α : Type} [Field α] (T : Trig α) (r r' : Floats16 α)
    (phi theta psi : α) : compute_mvp T r phi theta psi = compute_mvp T r' phi theta psi := by
  rw [compute_mvp_values, compute_mvp_values]

/-- The matrix that `compute_mvp` writes, row by row. -/
theorem asMatrix_compute_mvp {α : Type} [Field α] (T : Trig α) (r : Floats16 α)
    (phi theta psi : α) :
    asMatrix (compute_mvp T r phi theta psi) =
      (let c1 := T.cosf (phi * (T.G_PI / 180))
       let s1 := T.sinf (phi * (T.G_PI / 180))
       let c2 := T.cosf (theta * (T.G_PI / 180))
       let s2 := T.sinf (theta * (T.G_PI / 180))
       let c3 := T.cosf (psi * (T.G_PI / 180))
       let s3 := T.sinf (psi * (T.G_PI / 180))
       !![c3 * c2, s3 * c1 + c3 * s2 * s1, s3 * s1 - c3 * s2 * c1, 0;
          -(s3 * c2), c3 * c1 - s3 * s2 * s1, c3 * s1 + s3 * s2 * c1, 0;
          s2, -(c2 * s1), c2 * c1, 0;
          0, 0, 0, 1]) := by
  ext i j
  fin_cases i <;> fin_cases j <;> rfl

/-- The homogeneous extension, row by row. -/
theorem homogeneous_eq {α : Type} [Zero α] [One α] (M : Matrix (Fin 3) (Fin 3) α) :
    homogeneous M =
      !![M 0 0, M 0 1, M 0 2, 0;
         M 1 0, M 1 1, M 1 2, 0;
         M 2 0, M 2 1, M 2 2, 0;
         0, 0, 0, 1] := by
  ext i j
  fin_cases i <;> fin_cases j <;> rfl

/-- The product of the three factors of the source comment, multiplied out. -/
theorem factors_product {α : Type} [Field α] (T : Trig α) (phi theta psi : α) :
    factorZ T psi * factorY T theta * factorX T phi =
      (let c1 := T.cosf (phi * (T.G_PI / 180))
       let s1 := T.sinf (phi * (T.G_PI / 180))
       let c2 := T.cosf (theta * (T.G_PI / 180))
       let s2 := T.sinf (theta * (T.G_PI / 180))
       let c3 := T.cosf (psi * (T.G_PI / 180))
       let s3 := T.sinf (psi * (T.G_PI / 180))
       !![c3 * c2, s3 * c1 + c3 * s2 * s1, s3 * s1 - c3 * s2 * c1;
          -(s3 * c2), c3 * c1 - s3 * s2 * s1, c3 * s1 + s3 * s2 * c1;
          s2, -(c2 * s1), c2 * c1]) := by
  simp only [factorX, factorY, factorZ]
  generalize T.cosf (phi * (T.G_PI / 180)) = c1
  generalize T.sinf (phi * (T.G_PI / 180)) = s1
  generalize T.cosf (theta * (T.G_PI / 180)) = c2
  generalize T.sinf (theta * (T.G_PI / 180)) = s2
  generalize T.cosf (psi * (T.G_PI / 180)) = c3
  generalize T.sinf (psi * (T.G_PI / 180)) = s3
  rw [Matrix.mul_fin_three, Matrix.mul_fin_three]
  congr 1
  funext i j
  fin_cases i <;> fin_cases j <;> simp <;> ring

/-- The matrix written is the homogeneous extension of the product of the factors. -/
theorem compute_mvp_eq_product {α : Type} [Field α] (T : Trig α) (r : Floats16 α)
    (phi theta psi : α) :
    asMatrix (compute_mvp T r phi theta psi)
      = homogeneous (factorZ T psi * factorY T theta * factorX T phi) := by
  rw [asMatrix_compute_mvp, factors_product, homogeneous_eq]
  rfl

/-- Ninety degrees in radians. -/
theorem ninety_degrees : (90 : ℝ) * (Real.pi / 180) = Real.pi / 2 := by ring

/-! ## The rotation matrix -/

/-- C1: for all angles, the 16 values written by `compute_mvp` are the column-major
layout, `res[4*col+row]`, of the homogeneous extension of the product of the Z, Y and X
factors of the source comment; the fourth row and the fourth column are `(0,0,0,1)`. -/
theorem compute_mvp_is_comment_product (r : Floats16 ℝ) (phi theta psi : ℝ) :
    (∀ row col : Fin 4,
      (cm row col).val = 4 * col.val + row.val ∧
      compute_mvp ⟨Real.cos, Real.sin, Real.pi⟩ r phi theta psi (cm row col) =
        homogeneous (factorZ ⟨Real.cos, Real.sin, Real.pi⟩ psi *
          factorY ⟨Real.cos, Real.sin, Real.pi⟩ theta *
          factorX ⟨Real.cos, Real.sin, Real.pi⟩ phi) row col) ∧
    (∀ k : Fin 4,
      compute_mvp ⟨Real.cos, Real.sin, Real.pi⟩ r phi theta psi (cm 3 k)
        = (if k = 3 then 1 else 0) ∧
      compute_mvp ⟨Real.cos, Real.sin, Real.pi⟩ r phi theta psi (cm k 3)
        = (if k = 3 then 1 else 0)) := by
  refine ⟨fun row col => ⟨rfl, ?_⟩, fun k => ?_⟩
  · have h := compute_mvp_eq_product ⟨Real.cos, Real.sin, Real.pi⟩ r phi theta psi
    exact congrFun (congrFun h row) col
  · rw [compute_mvp_values]
    fin_cases k <;> exact ⟨rfl, rfl⟩

/-- C4: `compute_mvp(0, 0, 0)` writes the identity matrix: `res[0]`, `res[5]`, `res[10]`
and `res[15]` are 1 and the twelve other elements are 0. -/
theorem compute_mvp_zero_is_identity (r : Floats16 ℝ) :
    compute_mvp ⟨Real.cos, Real.sin, Real.pi⟩ r 0 0 0 =
      ![1, 0, 0, 0,
        0, 1, 0, 0,
        0, 0, 1, 0,
        0, 0, 0, 1] ∧
    asMatrix (compute_mvp ⟨Real.cos, Real.sin, Real.pi⟩ r 0 0 0) = 1 := by
  have h : compute_mvp ⟨Real.cos, Real.sin, Real.pi⟩ r 0 0 0 =
      ![1, 0, 0, 0, 0, 1, 0, 0, 0, 0, 1, 0, 0, 0, 0, 1] := by
    rw [compute_mvp_values]
    simp
  refine ⟨h, ?_⟩
  rw [h]
  ext i j
  fin_cases i <;> fin_cases j <;> rfl

/-- C2, as stated, fails: at 90 degrees about a single axis the matrix written is not
the closed-form rotation of the specification, for X, for Y and for Z. -/
theorem single_axis_closed_form_fails :
    asMatrix (compute_mvp ⟨Real.cos, Real.sin, Real.pi⟩ (fun _ => 0) 90 0 0)
      ≠ closedFormX ⟨Real.cos, Real.sin, Real.pi⟩ 90 ∧
    asMatrix (compute_mvp ⟨Real.cos, Real.sin, Real.pi⟩ (fun _ => 0) 0 90 0)
      ≠ closedFormY ⟨Real.cos, Real.sin, Real.pi⟩ 90 ∧
    asMatrix (compute_mvp ⟨Real.cos, Real.sin, Real.pi⟩ (fun _ => 0) 0 0 90)
      ≠ closedFormZ ⟨Real.cos, Real.sin, Real.pi⟩ 90 := by
  refine ⟨fun h => ?_, fun h => ?_, fun h => ?_⟩
  · have h12 := congrFun (congrFun h 1) 2
    rw [asMatrix_compute_mvp] at h12
    simp [closedFormX, ninety_degrees] at h12
    norm_num at h12
  · have h02 := congrFun (congrFun h 2) 0
    rw [asMatrix_compute_mvp] at h02
    simp [closedFormY, ninety_degrees] at h02
    norm_num at h02
  · have h01 := congrFun (congrFun h 0) 1
    rw [asMatrix_compute_mvp] at h01
    simp [closedFormZ, ninety_degrees] at h01
    norm_num at h01

/-- C2, amended: with one axis at `t` degrees and the other two at 0, the matrix written
is the transpose of the closed-form rotation about that axis by `t`, which is the
closed-form rotation by `-t`. -/
theorem single_axis_is_transposed_closed_form (r : Floats16 ℝ) (t : ℝ) :
    (asMatrix (compute_mvp ⟨Real.cos, Real.sin, Real.pi⟩ r t 0 0)
        = (closedFormX ⟨Real.cos, Real.sin, Real.pi⟩ t).transpose ∧
      asMatrix (compute_mvp ⟨Real.cos, Real.sin, Real.pi⟩ r t 0 0)
        = closedFormX ⟨Real.cos, Real.sin, Real.pi⟩ (-t)) ∧
    (asMatrix (compute_mvp ⟨Real.cos, Real.sin, Real.pi⟩ r 0 t 0)
        = (closedFormY ⟨Real.cos, Real.sin, Real.pi⟩ t).transpose ∧
      asMatrix (compute_mvp ⟨Real.cos, Real.sin, Real.pi⟩ r 0 t 0)
        = closedFormY ⟨Real.cos, Real.sin, Real.pi⟩ (-t)) ∧
    (asMatrix (compute_mvp ⟨Real.cos, Real.sin, Real.pi⟩ r 0 0 t)
        = (closedFormZ ⟨Real.cos, Real.sin, Real.pi⟩ t).transpose ∧
      asMatrix (compute_mvp ⟨Real.cos, Real.sin, Real.pi⟩ r 0 0 t)
        = closedFormZ ⟨Real.cos, Real.sin, Real.pi⟩ (-t)) := by
  refine ⟨⟨?_, ?_⟩, ⟨?_, ?_⟩, ⟨?_, ?_⟩⟩ <;>
  · rw [asMatrix_compute_mvp]
    ext i j
    fin_cases i <;> fin_cases j <;>
      simp [closedFormX, closedFormY, closedFormZ, Matrix.transpose_apply,
        Real.cos_neg, Real.sin_neg] <;> rfl

/-- C9: `compute_mvp(90, 0, 0)` and `compute_mvp(0, 0, 90)` write different arrays, and
the two matrices send the vector `(1, 0, 0, 1)` to different images. -/
theorem axis_swap_changes_transform (r r' : Floats16 ℝ) :
    compute_mvp ⟨Real.cos, Real.sin, Real.pi⟩ r 90 0 0
      ≠ compute_mvp ⟨Real.cos, Real.sin, Real.pi⟩ r' 0 0 90 ∧
    ∃ v : Fin 4 → ℝ,
      (asMatrix (compute_mvp ⟨Real.cos, Real.sin, Real.pi⟩ r 90 0 0)).mulVec v
        ≠ (asMatrix (compute_mvp ⟨Real.cos, Real.sin, Real.pi⟩ r' 0 0 90)).mulVec v := by
  constructor
  · intro h
    have h0 := congrFun h 0
    rw [compute_mvp_values, compute_mvp_values] at h0
    simp [ninety_degrees] at h0
  · refine ⟨![1, 0, 0, 1], fun h => ?_⟩
    have h0 := congrFun h 0
    rw [asMatrix_compute_mvp, asMatrix_compute_mvp] at h0
    simp [ninety_degrees, Matrix.mulVec, Matrix.dotProduct, Fin.sum_univ_four] at h0

/-- The upper-left block of what `compute_mvp` writes, row by row. -/
theorem upperLeft_compute_mvp {α : Type} [Field α] (T : Trig α) (r : Floats16 α)
    (phi theta psi : α) :
    upperLeft (compute_mvp T r phi theta psi) =
      (let c1 := T.cosf (phi * (T.G_PI / 180))
       let s1 := T.sinf (phi * (T.G_PI / 180))
       let c2 := T.cosf (theta * (T.G_PI / 180))
       let s2 := T.sinf (theta * (T.G_PI / 180))
       let c3 := T.cosf (psi * (T.G_PI / 180))
       let s3 := T.sinf (psi * (T.G_PI / 180))
       !![c3 * c2, s3 * c1 + c3 * s2 * s1, s3 * s1 - c3 * s2 * c1;
          -(s3 * c2), c3 * c1 - s3 * s2 * s1, c3 * s1 + s3 * s2 * c1;
          s2, -(c2 * s1), c2 * c1]) := by
  ext i j
  fin_cases i <;> fin_cases j <;> rfl

/-- The upper-left block is the product of the three factors of the source comment. -/
theorem upperLeft_eq_product {α : Type} [Field α] (T : Trig α) (r : Floats16 α)
    (phi theta psi : α) :
    upperLeft (compute_mvp T r phi theta psi)
      = factorZ T psi * factorY T theta * factorX T phi := by
  rw [upperLeft_compute_mvp, factors_product]

/-- Orthogonality is kept by products. -/
theorem orthogonal_mul {α : Type} [Field α] (A B : Matrix (Fin 3) (Fin 3) α)
    (hA : A * A.transpose = 1) (hB : B * B.transpose = 1) :
    (A * B) * (A * B).transpose = 1 := by
  rw [Matrix.transpose_mul, Matrix.mul_assoc, ← Matrix.mul_assoc B, hB, Matrix.one_mul, hA]

/-- The transpose of a 3x3 matrix, written out. -/
theorem transpose_three {α : Type} (a b c d e f g h i : α) :
    (!![a, b, c; d, e, f; g, h, i] : Matrix (Fin 3) (Fin 3) α).transpose
      = !![a, d, g; b, e, h; c, f, i] := by
  ext x y
  fin_cases x <;> fin_cases y <;> rfl

/-- The X factor is a proper rotation when its sine and cosine lie on the unit circle. -/
theorem factorX_rotation {α : Type} [Field α] (T : Trig α) (phi : α)
    (h : T.sinf (phi * (T.G_PI / 180)) ^ 2 + T.cosf (phi * (T.G_PI / 180)) ^ 2 = 1) :
    factorX T phi * (factorX T phi).transpose = 1 ∧ (factorX T phi).det = 1 := by
  simp only [factorX]
  generalize T.cosf (phi * (T.G_PI / 180)) = c at h
  generalize T.sinf (phi * (T.G_PI / 180)) = s at h
  constructor
  · rw [transpose_three, Matrix.mul_fin_three, Matrix.one_fin_three]
    congr 1
    funext i j
    fin_cases i <;> fin_cases j <;> simp [Matrix.vecHead, Matrix.vecTail] <;>
      first | linear_combination h | ring
  · rw [Matrix.det_fin_three]
    simp
    linear_combination h

/-- The Y factor is a proper rotation on the unit circle. -/
theorem factorY_rotation {α : Type} [Field α] (T : Trig α) (theta : α)
    (h : T.sinf (theta * (T.G_PI / 180)) ^ 2 + T.cosf (theta * (T.G_PI / 180)) ^ 2 = 1) :
    factorY T theta * (factorY T theta).transpose = 1 ∧ (factorY T theta).det = 1 := by
  simp only [factorY]
  generalize T.cosf (theta * (T.G_PI / 180)) = c at h
  generalize T.sinf (theta * (T.G_PI / 180)) = s at h
  constructor
  · rw [transpose_three, Matrix.mul_fin_three, Matrix.one_fin_three]
    congr 1
    funext i j
    fin_cases i <;> fin_cases j <;> simp [Matrix.vecHead, Matrix.vecTail] <;>
      first | linear_combination h | ring
  · rw [Matrix.det_fin_three]
    simp
    linear_combination h

/-- The Z factor is a proper rotation on the unit circle. -/
theorem factorZ_rotation {α : Type} [Field α] (T : Trig α) (psi : α)
    (h : T.sinf (psi * (T.G_PI / 180)) ^ 2 + T.cosf (psi * (T.G_PI / 180)) ^ 2 = 1) :
    factorZ T psi * (factorZ T psi).transpose = 1 ∧ (factorZ T psi).det = 1 := by
  simp only [factorZ]
  generalize T.cosf (psi * (T.G_PI / 180)) = c at h
  generalize T.sinf (psi * (T.G_PI / 180)) = s at h
  constructor
  · rw [transpose_three, Matrix.mul_fin_three, Matrix.one_fin_three]
    congr 1
    funext i j
    fin_cases i <;> fin_cases j <;> simp [Matrix.vecHead, Matrix.vecTail] <;>
      first | linear_combination h | ring
  · rw [Matrix.det_fin_three]
    simp
    linear_combination h

/-- C10: for all real angles the upper-left 3x3 block `R` of what `compute_mvp` writes is
a proper rotation: `R` times its transpose is the identity and `det R = 1`. -/
theorem compute_mvp_block_is_rotation (r : Floats16 ℝ) (phi theta psi : ℝ) :
    upperLeft (compute_mvp ⟨Real.cos, Real.sin, Real.pi⟩ r phi theta psi) *
        (upperLeft (compute_mvp ⟨Real.cos, Real.sin, Real.pi⟩ r phi theta psi)).transpose = 1 ∧
    (upperLeft (compute_mvp ⟨Real.cos, Real.sin, Real.pi⟩ r phi theta psi)).det = 1 := by
  rw [upperLeft_eq_product]
  have hX := factorX_rotation ⟨Real.cos, Real.sin, Real.pi⟩ phi (Real.sin_sq_add_cos_sq _)
  have hY := factorY_rotation ⟨Real.cos, Real.sin, Real.pi⟩ theta (Real.sin_sq_add_cos_sq _)
  have hZ := factorZ_rotation ⟨Real.cos, Real.sin, Real.pi⟩ psi (Real.sin_sq_add_cos_sq _)
  constructor
  · exact orthogonal_mul _ _ (orthogonal_mul _ _ hZ.1 hY.1) hX.1
  · rw [Matrix.det_mul, Matrix.det_mul, hX.2, hY.2, hZ.2]
    norm_num

/-! ## Call sequences -/

/-- The calls made by `draw_triangle`, in order. -/
theorem draw_triangle_calls {α : Type} [Field α] (T : Trig α) (w : Example_GLArea α)
    (g : GLState α) :
    (draw_triangle T w g).trace = g.trace ++
      [.UseProgram w.m_Program,
       .UniformMatrix4fv (toGLint w.m_Mvp) 1 GL_FALSE
          (List.ofFn (compute_mvp T (fun _ => 0)
            (w.m_RotationAngles.getD X_AXIS 0)
            (w.m_RotationAngles.getD Y_AXIS 0)
            (w.m_RotationAngles.getD Z_AXIS 0))),
       .BindBuffer GL_ARRAY_BUFFER w.m_Buffer,
       .EnableVertexAttribArray 0,
       .VertexAttribPointer 0 4 GL_FLOAT GL_FALSE 0 0,
       .DrawArrays GL_TRIANGLES 0 3,
       .DisableVertexAttribArray 0,
       .BindBuffer GL_ARRAY_BUFFER 0,
       .UseProgram 0] := by
  simp [draw_triangle, glUseProgram, glBindBuffer, glEnableVertexAttribArray,
    glVertexAttribPointer, glDrawArrays, glDisableVertexAttribArray, emit]

/-- The calls made since a state whose trace is a prefix. -/
theorem callsSince_append {α : Type} (g g' : GLState α) (cs : List (GLCall α))
    (h : g'.trace = g.trace ++ cs) : callsSince g g' = cs := by
  simp [callsSince, h]

/-- C8: in every state `draw_triangle` issues exactly one draw call,
`glDrawArrays(GL_TRIANGLES, 0, 3)`, and enables exactly one vertex attribute for it,
index 0 with 4 floats and stride 0, read from `m_Buffer`; on return the current program
is 0, the `GL_ARRAY_BUFFER` binding is 0 and attribute 0 is disabled. The attributes
enabled at the draw are attribute 0 and those that were enabled before the call; when
none was, attribute 0 is the only one and none is enabled on return. -/
theorem draw_triangle_frame {α : Type} [Field α] (T : Trig α) (w : Example_GLArea α)
    (g : GLState α) :
    callsSince g (draw_triangle T w g) =
      [.UseProgram w.m_Program,
       .UniformMatrix4fv (toGLint w.m_Mvp) 1 GL_FALSE
          (List.ofFn (compute_mvp T (fun _ => 0)
            (w.m_RotationAngles.getD X_AXIS 0)
            (w.m_RotationAngles.getD Y_AXIS 0)
            (w.m_RotationAngles.getD Z_AXIS 0))),
       .BindBuffer GL_ARRAY_BUFFER w.m_Buffer,
       .EnableVertexAttribArray 0,
       .VertexAttribPointer 0 4 GL_FLOAT GL_FALSE 0 0,
       .DrawArrays GL_TRIANGLES 0 3,
       .DisableVertexAttribArray 0,
       .BindBuffer GL_ARRAY_BUFFER 0,
       .UseProgram 0] ∧
    (callsSince g (draw_triangle T w g)).countP GLCall.isDraw = 1 ∧
    (callsSince g (draw_triangle T w g)).countP GLCall.isEnableAttrib = 1 ∧
    (draw_triangle T w g).draws = g.draws ++
      [{ mode := GL_TRIANGLES, first := 0, count := 3, program := w.m_Program,
         enabledAttribs := if 0 ∈ g.enabledAttribs then g.enabledAttribs
                           else 0 :: g.enabledAttribs,
         attribPointers :=
           { index := 0, size := 4, type := GL_FLOAT, normalized := GL_FALSE, stride := 0,
             pointer := 0, buffer := w.m_Buffer }
           :: g.attribPointers.filter (fun p => p.index != 0) }] ∧
    (∀ i, i ∈ (if 0 ∈ g.enabledAttribs then g.enabledAttribs else 0 :: g.enabledAttribs)
        ↔ i = 0 ∨ i ∈ g.enabledAttribs) ∧
    (draw_triangle T w g).currentProgram = 0 ∧
    (draw_triangle T w g).arrayBufferBinding = 0 ∧
    (∀ i, i ∈ (draw_triangle T w g).enabledAttribs ↔ i ≠ 0 ∧ i ∈ g.enabledAttribs) ∧
    (draw_triangle T w { g with enabledAttribs := [] }).draws.map DrawRecord.enabledAttribs
      = g.draws.map DrawRecord.enabledAttribs ++ [[0]] ∧
    (draw_triangle T w { g with enabledAttribs := [] }).enabledAttribs = [] := by
  have hc := callsSince_append g _ _ (draw_triangle_calls T w g)
  refine ⟨hc, ?_, ?_, ?_, ?_, ?_, ?_, ?_, ?_, ?_⟩
  · rw [hc]; rfl
  · rw [hc]; rfl
  · simp [draw_triangle, glUseProgram, glBindBuffer, glEnableVertexAttribArray,
      glVertexAttribPointer, glDrawArrays, glDisableVertexAttribArray, emit]
  · intro i
    by_cases h0 : 0 ∈ g.enabledAttribs
    · simp only [h0, if_true]
      constructor
      · exact fun h => Or.inr h
      · rintro (rfl | h)
        · exact h0
        · exact h
    · simp [h0]
  · simp [draw_triangle, glUseProgram, glBindBuffer, glEnableVertexAttribArray,
      glVertexAttribPointer, glDrawArrays, glDisableVertexAttribArray, emit]
  · simp [draw_triangle, glUseProgram, glBindBuffer, glEnableVertexAttribArray,
      glVertexAttribPointer, glDrawArrays, glDisableVertexAttribArray, emit]
  · intro i
    by_cases h0 : 0 ∈ g.enabledAttribs <;>
      simp [draw_triangle, glUseProgram, glBindBuffer, glEnableVertexAttribArray,
        glVertexAttribPointer, glDrawArrays, glDisableVertexAttribArray, emit, h0,
        List.mem_filter] <;> tauto
  · simp [draw_triangle, glUseProgram, glBindBuffer, glEnableVertexAttribArray,
      glVertexAttribPointer, glDrawArrays, glDisableVertexAttribArray, emit]
  · simp [draw_triangle, glUseProgram, glBindBuffer, glEnableVertexAttribArray,
      glVertexAttribPointer, glDrawArrays, glDisableVertexAttribArray, emit]

/-- The calls made by a `render` without context error, in order. -/
theorem render_calls {α : Type} [Field α] (D : Driver) (T : Trig α) (w : Example_GLArea α)
    (g : GLState α) (hD : D.context_error = false) :
    (render D T w g).1 = true ∧
    (render D T w g).2.trace = g.trace ++
      [.ClearColor (1 / 10) (1 / 10) (1 / 10) 1,
       .Clear GL_COLOR_BUFFER_BIT,
       .UseProgram w.m_Program,
       .UniformMatrix4fv (toGLint w.m_Mvp) 1 GL_FALSE
          (List.ofFn (compute_mvp T (fun _ => 0)
            (w.m_RotationAngles.getD X_AXIS 0)
            (w.m_RotationAngles.getD Y_AXIS 0)
            (w.m_RotationAngles.getD Z_AXIS 0))),
       .BindBuffer GL_ARRAY_BUFFER w.m_Buffer,
       .EnableVertexAttribArray 0,
       .VertexAttribPointer 0 4 GL_FLOAT GL_FALSE 0 0,
       .DrawArrays GL_TRIANGLES 0 3,
       .DisableVertexAttribArray 0,
       .BindBuffer GL_ARRAY_BUFFER 0,
       .UseProgram 0,
       .Flush] := by
  simp [render, hD, emit, draw_triangle_calls]

/-- A `render` with a context error makes no call and returns `false`. -/
theorem render_context_error {α : Type} [Field α] (D : Driver) (T : Trig α)
    (w : Example_GLArea α) (g : GLState α) (hD : D.context_error = true) :
    render D T w g = (false, g) := by
  simp [render, hD]

/-- C5, as stated, fails: after a `realize` in which the vertex shader source is missing,
`m_Program` is 0 and a `render` still issues a `glDrawArrays`. -/
theorem render_after_failed_realize_draws :
    (realize missingVertexDriver (Example_GLArea.construct : Example_GLArea ℝ)
        GLState.fresh).1.m_Program = 0 ∧
    (callsSince
        (realize missingVertexDriver (Example_GLArea.construct : Example_GLArea ℝ)
          GLState.fresh).2
        (render missingVertexDriver ⟨Real.cos, Real.sin, Real.pi⟩
          (realize missingVertexDriver (Example_GLArea.construct : Example_GLArea ℝ)
            GLState.fresh).1
          (realize missingVertexDriver (Example_GLArea.construct : Example_GLArea ℝ)
            GLState.fresh).2).2).countP GLCall.isDraw = 1 := by
  constructor
  · rfl
  · rw [callsSince_append _ _ _ (render_calls _ _ _ _ rfl).2]
    rfl

/-- C5, amended: when `m_Program` is 0, a `render` without context error still runs
`draw_triangle`: it returns `true` and its calls are those of the source in order, with
`glUseProgram(0)` and exactly one draw, `glDrawArrays(GL_TRIANGLES, 0, 3)`, seen by OpenGL
with program 0 current; a `render` with a context error returns `false`, makes no OpenGL
call and leaves the OpenGL state as it was. -/
theorem render_with_zero_program {α : Type} [Field α] (D : Driver) (T : Trig α)
    (w : Example_GLArea α) (g : GLState α) (hfail : w.m_Program = 0) :
    (render D T w g).1 = !D.context_error ∧
    callsSince g (render D T w g).2 =
      (if D.context_error then []
       else
        [.ClearColor (1 / 10) (1 / 10) (1 / 10) 1,
         .Clear GL_COLOR_BUFFER_BIT,
         .UseProgram 0,
         .UniformMatrix4fv (toGLint w.m_Mvp) 1 GL_FALSE
            (List.ofFn (compute_mvp T (fun _ => 0)
              (w.m_RotationAngles.getD X_AXIS 0)
              (w.m_RotationAngles.getD Y_AXIS 0)
              (w.m_RotationAngles.getD Z_AXIS 0))),
         .BindBuffer GL_ARRAY_BUFFER w.m_Buffer,
         .EnableVertexAttribArray 0,
         .VertexAttribPointer 0 4 GL_FLOAT GL_FALSE 0 0,
         .DrawArrays GL_TRIANGLES 0 3,
         .DisableVertexAttribArray 0,
         .BindBuffer GL_ARRAY_BUFFER 0,
         .UseProgram 0,
         .Flush]) ∧
    (D.context_error = true → (render D T w g).2 = g) ∧
    (render D T w g).2.draws =
      (if D.context_error then g.draws
       else g.draws ++
        [{ mode := GL_TRIANGLES, first := 0, count := 3, program := 0,
           enabledAttribs := if 0 ∈ g.enabledAttribs then g.enabledAttribs
                             else 0 :: g.enabledAttribs,
           attribPointers :=
             { index := 0, size := 4, type := GL_FLOAT, normalized := GL_FALSE, stride := 0,
               pointer := 0, buffer := w.m_Buffer }
             :: g.attribPointers.filter (fun p => p.index != 0) }]) ∧
    (callsSince g (render D T w g).2).countP GLCall.isDraw
      = (if D.context_error then 0 else 1) ∧
    ((render D T w g).2.draws.drop g.draws.length).map DrawRecord.program
      = (if D.context_error then [] else [0]) := by
  cases hD : D.context_error
  · have h := render_calls D T w g hD
    have hc := callsSince_append _ _ _ h.2
    rw [hfail] at hc
    refine ⟨by simp [h.1], ?_, ?_, ?_, ?_, ?_⟩
    · simpa using hc
    · intro hne
      exact absurd hne (by simp)
    · simp [render, hD, emit, draw_triangle, glUseProgram, glBindBuffer,
        glEnableVertexAttribArray, glVertexAttribPointer, glDrawArrays,
        glDisableVertexAttribArray, hfail]
    · rw [hc]; rfl
    · simp [render, hD, emit, draw_triangle, glUseProgram, glBindBuffer,
        glEnableVertexAttribArray, glVertexAttribPointer, glDrawArrays,
        glDisableVertexAttribArray, hfail]
  · rw [render_context_error D T w g hD]
    simp [callsSince]

/-- C5, amended, at a concrete input: the state left by a `realize` that did not find the
vertex shader source. -/
theorem render_with_zero_program_witness :
    (realize missingVertexDriver (Example_GLArea.construct : Example_GLArea ℝ)
        GLState.fresh).1.m_Program = 0 ∧
    ((render missingVertexDriver ⟨Real.cos, Real.sin, Real.pi⟩
        (realize missingVertexDriver (Example_GLArea.construct : Example_GLArea ℝ)
          GLState.fresh).1
        (realize missingVertexDriver (Example_GLArea.construct : Example_GLArea ℝ)
          GLState.fresh).2).1 = !missingVertexDriver.context_error ∧
      (callsSince
        (realize missingVertexDriver (Example_GLArea.construct : Example_GLArea ℝ)
          GLState.fresh).2
        (render missingVertexDriver ⟨Real.cos, Real.sin, Real.pi⟩
          (realize missingVertexDriver (Example_GLArea.construct : Example_GLArea ℝ)
            GLState.fresh).1
          (realize missingVertexDriver (Example_GLArea.construct : Example_GLArea ℝ)
            GLState.fresh).2).2).countP GLCall.isDraw
        = (if missingVertexDriver.context_error then 0 else 1) ∧
      ((render missingVertexDriver ⟨Real.cos, Real.sin, Real.pi⟩
          (realize missingVertexDriver (Example_GLArea.construct : Example_GLArea ℝ)
            GLState.fresh).1
          (realize missingVertexDriver (Example_GLArea.construct : Example_GLArea ℝ)
            GLState.fresh).2).2.draws.drop
          (realize missingVertexDriver (Example_GLArea.construct : Example_GLArea ℝ)
            GLState.fresh).2.draws.length).map DrawRecord.program
        = (if missingVertexDriver.context_error then [] else [0])) :=
  have h := render_with_zero_program missingVertexDriver ⟨Real.cos, Real.sin, Real.pi⟩
    (realize missingVertexDriver (Example_GLArea.construct : Example_GLArea ℝ)
      GLState.fresh).1
    (realize missingVertexDriver (Example_GLArea.construct : Example_GLArea ℝ)
      GLState.fresh).2 rfl
  ⟨rfl, h.1, h.2.2.2.2.1, h.2.2.2.2.2⟩

/-- An info log length that fits in the buffer raises no `std::length_error`. -/
theorem string_length_error_of_fit (n : Int) (h : -1 ≤ n ∧ n < 2 ^ 31 - 1) :
    string_length_error n = false := by
  obtain ⟨h1, h2⟩ := h
  unfold string_length_error toInt32
  norm_num at h1 h2 ⊢
  omega

/-- A negative buffer length, from an info log length below -1, raises it. -/
theorem string_length_error_of_negative (n : Int) (h : -2 ^ 31 ≤ n ∧ n ≤ -2) :
    string_length_error n = true := by
  obtain ⟨h1, h2⟩ := h
  unfold string_length_error toInt32
  norm_num at h1 h2 ⊢
  omega

/-- What `create_shader` returns and calls, by the outcome of the compilation. -/
theorem create_shader_eq {α : Type} (D : Driver) (type : Nat) (src : String) (g : GLState α) :
    create_shader D type src g =
      if D.compiles type src then
        (some (D.createShader type),
          { g with trace := g.trace ++
            [.CreateShader type (D.createShader type),
             .ShaderSource (D.createShader type) 1 src,
             .CompileShader (D.createShader type),
             .GetShaderiv (D.createShader type) GL_COMPILE_STATUS 1] })
      else if string_length_error (D.shaderLogLength type) then
        (none,
          { g with trace := g.trace ++
            [.CreateShader type (D.createShader type),
             .ShaderSource (D.createShader type) 1 src,
             .CompileShader (D.createShader type),
             .GetShaderiv (D.createShader type) GL_COMPILE_STATUS 0,
             .GetShaderiv (D.createShader type) GL_INFO_LOG_LENGTH (D.shaderLogLength type)] })
      else
        (some 0,
          { g with trace := g.trace ++
            [.CreateShader type (D.createShader type),
             .ShaderSource (D.createShader type) 1 src,
             .CompileShader (D.createShader type),
             .GetShaderiv (D.createShader type) GL_COMPILE_STATUS 0,
             .GetShaderiv (D.createShader type) GL_INFO_LOG_LENGTH (D.shaderLogLength type),
             .GetShaderInfoLog (D.createShader type) (D.shaderLogLength type),
             .DeleteShader (D.createShader type)] }) := by
  cases h : D.compiles type src <;>
    cases hl : string_length_error (D.shaderLogLength type) <;>
    simp [create_shader, emit, h, hl, GL_TRUE, GL_FALSE]

/-! ## Initialization and teardown -/

/-- A uniform location survives the round trip through the `GLuint` member `m_Mvp`. -/
theorem toGLint_toGLuint (i : Int) (h : -2 ^ 31 ≤ i ∧ i < 2 ^ 31) :
    toGLint (toGLuint i) = i := by
  unfold toGLint toGLuint
  obtain ⟨h1, h2⟩ := h
  norm_num at h1 h2 ⊢
  have h3 : ((i % 4294967296).toNat : Int) = i % 4294967296 :=
    Int.toNat_of_nonneg (Int.emod_nonneg _ (by norm_num))
  have h4 : (i % 4294967296).toNat % 4294967296 = (i % 4294967296).toNat := by
    apply Nat.mod_eq_of_lt
    omega
  rw [h4]
  split_ifs with hlt
  · omega
  · omega

/-- What a successful `init_shaders` leaves. -/
theorem init_shaders_success {α : Type} (D : Driver) (vertex_path fragment_path : String)
    (w : Example_GLArea α) (g : GLState α)
    (hok : shadersSucceed D vertex_path fragment_path = true) :
    ∃ vsrc fsrc, D.lookup_data_global vertex_path = some vsrc ∧
      D.lookup_data_global fragment_path = some fsrc ∧
      init_shaders D vertex_path fragment_path w g =
      ⟨{ w with m_Program := D.createProgram, m_Mvp := toGLuint (D.uniformLocation "mvp") },
       { g with trace := g.trace ++
          [.CreateShader GL_VERTEX_SHADER (D.createShader GL_VERTEX_SHADER),
           .ShaderSource (D.createShader GL_VERTEX_SHADER) 1 vsrc,
           .CompileShader (D.createShader GL_VERTEX_SHADER),
           .GetShaderiv (D.createShader GL_VERTEX_SHADER) GL_COMPILE_STATUS 1,
           .CreateShader GL_FRAGMENT_SHADER (D.createShader GL_FRAGMENT_SHADER),
           .ShaderSource (D.createShader GL_FRAGMENT_SHADER) 1 fsrc,
           .CompileShader (D.createShader GL_FRAGMENT_SHADER),
           .GetShaderiv (D.createShader GL_FRAGMENT_SHADER) GL_COMPILE_STATUS 1,
           .CreateProgram D.createProgram,
           .AttachShader D.createProgram (D.createShader GL_VERTEX_SHADER),
           .AttachShader D.createProgram (D.createShader GL_FRAGMENT_SHADER),
           .LinkProgram D.createProgram,
           .GetProgramiv D.createProgram GL_LINK_STATUS 1,
           .GetUniformLocation D.createProgram "mvp" (D.uniformLocation "mvp"),
           .DetachShader D.createProgram (D.createShader GL_VERTEX_SHADER),
           .DetachShader D.createProgram (D.createShader GL_FRAGMENT_SHADER),
           .DeleteShader (D.createShader GL_VERTEX_SHADER),
           .DeleteShader (D.createShader GL_FRAGMENT_SHADER)] }, false⟩ := by
  unfold shadersSucceed at hok
  cases hv : D.lookup_data_global vertex_path with
  | none => simp [hv] at hok
  | some vsrc =>
    cases hf : D.lookup_data_global fragment_path with
    | none => simp [hv, hf] at hok
    | some fsrc =>
      simp [hv, hf] at hok
      obtain ⟨⟨⟨⟨hcv, hcf⟩, hl⟩, hvz⟩, hfz⟩ := hok
      refine ⟨vsrc, fsrc, rfl, rfl, ?_⟩
      simp [init_shaders, hv, hf, create_shader_eq, hcv, hcf, hl, hvz, hfz, emit,
        GL_TRUE, GL_FALSE]

/-- What `init_buffers` leaves. -/
theorem init_buffers_eq {α : Type} [Field α] (D : Driver) (w : Example_GLArea α)
    (g : GLState α) :
    init_buffers D w g =
      ({ w with m_Vaooooo := D.genVertexArray, m_Buffer := D.genBuffer },
       { g with
         trace := g.trace ++
          [.GenVertexArrays 1 D.genVertexArray,
           .BindVertexArray D.genVertexArray,
           .GenBuffers 1 D.genBuffer,
           .BindBuffer GL_ARRAY_BUFFER D.genBuffer,
           .BufferData GL_ARRAY_BUFFER sizeof_vertex_data vertex_data GL_STATIC_DRAW,
           .BindBuffer GL_ARRAY_BUFFER 0],
         arrayBufferBinding := 0,
         vertexArrayBinding := D.genVertexArray }) := by
  simp [init_buffers, glBindVertexArray, glBindBuffer, emit]

/-- On every path of `init_shaders` on which a step fails and the info log lengths fit,
the method returns, `m_Program` is 0 and each shader handle created was passed to exactly
one `glDeleteShader`. -/
theorem init_shaders_failure_paths {α : Type} (D : Driver)
    (vertex_path fragment_path : String) (w : Example_GLArea α) (g : GLState α)
    (hfail : shadersSucceed D vertex_path fragment_path = false)
    (hdistinct : D.createShader GL_VERTEX_SHADER ≠ D.createShader GL_FRAGMENT_SHADER)
    (hshaderlog : ∀ type, string_length_error (D.shaderLogLength type) = false)
    (hprogramlog : string_length_error D.programLogLength = false) :
    (init_shaders D vertex_path fragment_path w g).thrown = false ∧
    (init_shaders D vertex_path fragment_path w g).1.m_Program = 0 ∧
    ∀ h : Nat, h ≠ 0 →
      h ∈ createdShaders (callsSince g (init_shaders D vertex_path fragment_path w g).2) →
      (deletedShaders (callsSince g (init_shaders D vertex_path fragment_path w g).2)).count h
        = 1 := by
  unfold init_shaders
  cases hv : D.lookup_data_global vertex_path with
  | none => simp [callsSince, createdShaders]
  | some vsrc =>
    simp only [create_shader_eq, hshaderlog]
    cases hcv : D.compiles GL_VERTEX_SHADER vsrc
    · refine ⟨by simp, by simp, fun h hh => ?_⟩
      simp [emit, callsSince, createdShaders, deletedShaders]
      rintro rfl
      simp
    · simp only [if_true]
      by_cases hvz : D.createShader GL_VERTEX_SHADER = 0
      · refine ⟨by simp [hvz], by simp [hvz], fun h hh => ?_⟩
        simp [hvz, emit, callsSince, createdShaders, deletedShaders]
        exact fun h0 => absurd h0 hh
      · simp only [hvz, if_false]
        cases hf : D.lookup_data_global fragment_path with
        | none =>
          refine ⟨by simp, by simp, fun h hh => ?_⟩
          simp [emit, callsSince, createdShaders, deletedShaders]
          rintro rfl
          simp
        | some fsrc =>
          simp only []
          cases hcf : D.compiles GL_FRAGMENT_SHADER fsrc
          · refine ⟨by simp, by simp, fun h hh => ?_⟩
            simp [emit, callsSince, createdShaders, deletedShaders]
            rintro (rfl | rfl) <;> simp [List.count_cons, hdistinct, Ne.symm hdistinct]
          · simp only [if_true]
            by_cases hfz : D.createShader GL_FRAGMENT_SHADER = 0
            · refine ⟨by simp [hfz], by simp [hfz], fun h hh => ?_⟩
              simp [hfz, emit, callsSince, createdShaders, deletedShaders]
              rintro (rfl | rfl)
              · simp
              · exact absurd rfl hh
            · have hl : D.links = false := by
                simp [shadersSucceed, hv, hf, hcv, hcf, hvz, hfz] at hfail
                exact hfail
              refine ⟨by simp [hfz, hl, hprogramlog, GL_TRUE, GL_FALSE],
                by simp [hfz, hl, hprogramlog, GL_TRUE, GL_FALSE], fun h hh => ?_⟩
              simp [hfz, hl, hprogramlog, emit, callsSince, createdShaders, deletedShaders,
                GL_TRUE, GL_FALSE]
              rintro (rfl | rfl) <;> simp [List.count_cons, hdistinct, Ne.symm hdistinct]

/-- The path of `init_shaders` on which the vertex shader compiles and the fragment shader
does not: the fragment shader is deleted by `create_shader`, then the vertex shader. -/
theorem init_shaders_bad_fragment {α : Type} (D : Driver)
    (vertex_path fragment_path : String) (w : Example_GLArea α) (g : GLState α)
    (vsrc fsrc : String)
    (hv : D.lookup_data_global vertex_path = some vsrc)
    (hf : D.lookup_data_global fragment_path = some fsrc)
    (hcv : D.compiles GL_VERTEX_SHADER vsrc = true)
    (hvz : D.createShader GL_VERTEX_SHADER ≠ 0)
    (hcf : D.compiles GL_FRAGMENT_SHADER fsrc = false)
    (hlog : string_length_error (D.shaderLogLength GL_FRAGMENT_SHADER) = false) :
    deletedShaders (callsSince g (init_shaders D vertex_path fragment_path w g).2)
      = [D.createShader GL_FRAGMENT_SHADER, D.createShader GL_VERTEX_SHADER] := by
  simp [init_shaders, hv, hf, create_shader_eq, hcv, hcf, hvz, hlog, emit, callsSince,
    deletedShaders]

/-- Outside what OpenGL allows, with an info log length of -2 for a fragment shader that
does not compile, `init_shaders` is left by the `std::length_error`: `m_Program` keeps
its value and neither shader is deleted. -/
theorem init_shaders_length_error_leaks :
    (init_shaders negativeLogDriver "/glarea/v.glsl" "/glarea/f.glsl"
      ({ (Example_GLArea.construct : Example_GLArea ℝ) with m_Program := 9 })
      GLState.fresh).thrown = true ∧
    (init_shaders negativeLogDriver "/glarea/v.glsl" "/glarea/f.glsl"
      ({ (Example_GLArea.construct : Example_GLArea ℝ) with m_Program := 9 })
      GLState.fresh).1.m_Program = 9 ∧
    createdShaders (callsSince GLState.fresh
      (init_shaders negativeLogDriver "/glarea/v.glsl" "/glarea/f.glsl"
        ({ (Example_GLArea.construct : Example_GLArea ℝ) with m_Program := 9 })
        GLState.fresh).2) = [3, 4] ∧
    deletedShaders (callsSince GLState.fresh
      (init_shaders negativeLogDriver "/glarea/v.glsl" "/glarea/f.glsl"
        ({ (Example_GLArea.construct : Example_GLArea ℝ) with m_Program := 9 })
        GLState.fresh).2) = [] :=
  ⟨rfl, rfl, rfl, rfl⟩

/-- C6: on every failure path of `init_shaders` (a source not found, a stage that does not
compile, a shader object not created, a link failure), when the info log lengths that
OpenGL reports fit their buffers (at least -1 and below `INT_MAX`; OpenGL gives a length
that is not negative), the method returns, `m_Program` is 0 on return and every shader
object created during the call was deleted by exactly one `glDeleteShader`; when the
vertex shader compiles and the fragment shader does not, the calls of `glDeleteShader`
are one for the fragment shader and one for the vertex shader. -/
theorem init_shaders_failure_cleanup {α : Type} (D : Driver)
    (vertex_path fragment_path : String) (w : Example_GLArea α) (g : GLState α)
    (hfail : shadersSucceed D vertex_path fragment_path = false)
    (hdistinct : D.createShader GL_VERTEX_SHADER ≠ D.createShader GL_FRAGMENT_SHADER)
    (hshaderlog : ∀ type, -1 ≤ D.shaderLogLength type ∧ D.shaderLogLength type < 2 ^ 31 - 1)
    (hprogramlog : -1 ≤ D.programLogLength ∧ D.programLogLength < 2 ^ 31 - 1) :
    (init_shaders D vertex_path fragment_path w g).thrown = false ∧
    (init_shaders D vertex_path fragment_path w g).1.m_Program = 0 ∧
    (∀ h : Nat, h ≠ 0 →
      h ∈ createdShaders (callsSince g (init_shaders D vertex_path fragment_path w g).2) →
      (deletedShaders (callsSince g (init_shaders D vertex_path fragment_path w g).2)).count h
        = 1) ∧
    (∀ vsrc fsrc : String,
      D.lookup_data_global vertex_path = some vsrc →
      D.lookup_data_global fragment_path = some fsrc →
      D.compiles GL_VERTEX_SHADER vsrc = true →
      D.createShader GL_VERTEX_SHADER ≠ 0 →
      D.compiles GL_FRAGMENT_SHADER fsrc = false →
      deletedShaders (callsSince g (init_shaders D vertex_path fragment_path w g).2)
        = [D.createShader GL_FRAGMENT_SHADER, D.createShader GL_VERTEX_SHADER]) :=
  have hs : ∀ type, string_length_error (D.shaderLogLength type) = false :=
    fun type => string_length_error_of_fit _ (hshaderlog type)
  have hp : string_length_error D.programLogLength = false :=
    string_length_error_of_fit _ hprogramlog
  ⟨(init_shaders_failure_paths D vertex_path fragment_path w g hfail hdistinct hs hp).1,
   (init_shaders_failure_paths D vertex_path fragment_path w g hfail hdistinct hs hp).2.1,
   (init_shaders_failure_paths D vertex_path fragment_path w g hfail hdistinct hs hp).2.2,
   fun vsrc fsrc hv hf hcv hvz hcf =>
     init_shaders_bad_fragment D vertex_path fragment_path w g vsrc fsrc hv hf hcv hvz hcf
       (hs GL_FRAGMENT_SHADER)⟩

/-- C6 at a concrete input: the vertex shader compiles, the fragment shader does not. -/
theorem init_shaders_failure_cleanup_witness :
    shadersSucceed badFragmentDriver "/glarea/v.glsl" "/glarea/f.glsl" = false ∧
    badFragmentDriver.createShader GL_VERTEX_SHADER
      ≠ badFragmentDriver.createShader GL_FRAGMENT_SHADER ∧
    (∀ type, -1 ≤ badFragmentDriver.shaderLogLength type ∧
      badFragmentDriver.shaderLogLength type < 2 ^ 31 - 1) ∧
    (-1 ≤ badFragmentDriver.programLogLength ∧
      badFragmentDriver.programLogLength < 2 ^ 31 - 1) ∧
    (init_shaders badFragmentDriver "/glarea/v.glsl" "/glarea/f.glsl"
      (Example_GLArea.construct : Example_GLArea ℝ) GLState.fresh).thrown = false ∧
    (init_shaders badFragmentDriver "/glarea/v.glsl" "/glarea/f.glsl"
      (Example_GLArea.construct : Example_GLArea ℝ) GLState.fresh).1.m_Program = 0 ∧
    (deletedShaders (callsSince GLState.fresh
      (init_shaders badFragmentDriver "/glarea/v.glsl" "/glarea/f.glsl"
        (Example_GLArea.construct : Example_GLArea ℝ) GLState.fresh).2)).count 3 = 1 ∧
    deletedShaders (callsSince GLState.fresh
      (init_shaders badFragmentDriver "/glarea/v.glsl" "/glarea/f.glsl"
        (Example_GLArea.construct : Example_GLArea ℝ) GLState.fresh).2) = [4, 3] :=
  have h := init_shaders_failure_cleanup badFragmentDriver "/glarea/v.glsl" "/glarea/f.glsl"
    (Example_GLArea.construct : Example_GLArea ℝ) GLState.fresh (by decide) (by decide)
    (fun _ => show (-1 : Int) ≤ 20 ∧ (20 : Int) < 2 ^ 31 - 1 by decide) (by decide)
  ⟨by decide, by decide,
   fun _ => show (-1 : Int) ≤ 20 ∧ (20 : Int) < 2 ^ 31 - 1 by decide, by decide, h.1, h.2.1,
   h.2.2.1 3 (by decide) (by decide),
   h.2.2.2 "/glarea/v.glsl" "/glarea/f.glsl" rfl rfl rfl (by decide) rfl⟩

/-- C7: after `init_buffers` and a successful `init_shaders`, one `unrealize` without
context error calls `glDeleteBuffers(1, &m_Buffer)` and `glDeleteProgram(m_Program)`, once
each, and these are the only delete calls for a buffer or a program since the
initialization began. -/
theorem unrealize_after_successful_init {α : Type} [Field α] (D D' : Driver)
    (vertex_path fragment_path : String) (w : Example_GLArea α) (g : GLState α)
    (hok : shadersSucceed D vertex_path fragment_path = true)
    (hctx : D'.context_error = false) :
    (init_shaders D vertex_path fragment_path
        (init_buffers D w g).1 (init_buffers D w g).2).1.m_Buffer = D.genBuffer ∧
    (init_shaders D vertex_path fragment_path
        (init_buffers D w g).1 (init_buffers D w g).2).1.m_Program = D.createProgram ∧
    callsSince
        (init_shaders D vertex_path fragment_path
          (init_buffers D w g).1 (init_buffers D w g).2).2
        (unrealize D'
          (init_shaders D vertex_path fragment_path
            (init_buffers D w g).1 (init_buffers D w g).2).1
          (init_shaders D vertex_path fragment_path
            (init_buffers D w g).1 (init_buffers D w g).2).2)
      = [.DeleteBuffers 1 D.genBuffer, .DeleteProgram D.createProgram] ∧
    deletedBuffers (callsSince g
        (unrealize D'
          (init_shaders D vertex_path fragment_path
            (init_buffers D w g).1 (init_buffers D w g).2).1
          (init_shaders D vertex_path fragment_path
            (init_buffers D w g).1 (init_buffers D w g).2).2)) = [D.genBuffer] ∧
    deletedPrograms (callsSince g
        (unrealize D'
          (init_shaders D vertex_path fragment_path
            (init_buffers D w g).1 (init_buffers D w g).2).1
          (init_shaders D vertex_path fragment_path
            (init_buffers D w g).1 (init_buffers D w g).2).2)) = [D.createProgram] := by
  obtain ⟨vsrc, fsrc, -, -, hs⟩ :=
    init_shaders_success D vertex_path fragment_path (init_buffers D w g).1
      (init_buffers D w g).2 hok
  rw [hs, init_buffers_eq]
  simp [unrealize, hctx, glDeleteBuffers, emit, callsSince, deletedBuffers, deletedPrograms]

/-- C7 at a concrete input: an environment in which everything succeeds. -/
theorem unrealize_after_successful_init_witness :
    shadersSucceed workingDriver "/glarea/v.glsl" "/glarea/f.glsl" = true ∧
    workingDriver.context_error = false ∧
    deletedBuffers (callsSince GLState.fresh
        (unrealize workingDriver
          (init_shaders workingDriver "/glarea/v.glsl" "/glarea/f.glsl"
            (init_buffers workingDriver (Example_GLArea.construct : Example_GLArea ℝ)
              GLState.fresh).1
            (init_buffers workingDriver (Example_GLArea.construct : Example_GLArea ℝ)
              GLState.fresh).2).1
          (init_shaders workingDriver "/glarea/v.glsl" "/glarea/f.glsl"
            (init_buffers workingDriver (Example_GLArea.construct : Example_GLArea ℝ)
              GLState.fresh).1
            (init_buffers workingDriver (Example_GLArea.construct : Example_GLArea ℝ)
              GLState.fresh).2).2)) = [2] ∧
    deletedPrograms (callsSince GLState.fresh
        (unrealize workingDriver
          (init_shaders workingDriver "/glarea/v.glsl" "/glarea/f.glsl"
            (init_buffers workingDriver (Example_GLArea.construct : Example_GLArea ℝ)
              GLState.fresh).1
            (init_buffers workingDriver (Example_GLArea.construct : Example_GLArea ℝ)
              GLState.fresh).2).1
          (init_shaders workingDriver "/glarea/v.glsl" "/glarea/f.glsl"
            (init_buffers workingDriver (Example_GLArea.construct : Example_GLArea ℝ)
              GLState.fresh).1
            (init_buffers workingDriver (Example_GLArea.construct : Example_GLArea ℝ)
              GLState.fresh).2).2)) = [5] :=
  have h := unrealize_after_successful_init workingDriver workingDriver
    "/glarea/v.glsl" "/glarea/f.glsl" (Example_GLArea.construct : Example_GLArea ℝ)
    GLState.fresh (by decide) rfl
  ⟨by decide, rfl, h.2.2.2.1, h.2.2.2.2⟩

/-- C3: from the default angles `(0,0,0)`, for every `t`, `on_axis_value_change(Y_AXIS, t)`
followed by a `render` without context error uploads exactly one matrix, at the location
kept in `m_Mvp`, untransposed, and it is `compute_mvp(0, t, 0)`; after a successful
`realize` that location is the one `glGetUniformLocation` returned for "mvp". Entry
`[0][0]` of the matrix, element 0, is `cos t` and entry `[2][0]`, element 2, is `sin t`
(`t` in degrees). -/
theorem render_uploads_Y_rotation (D : Driver) (w : Example_GLArea ℝ) (g : GLState ℝ) (t : ℝ)
    (hangles : w.m_RotationAngles = List.replicate N_AXIS 0)
    (hctx : D.context_error = false)
    (hok : shadersSucceed D "/glarea/v.glsl" "/glarea/f.glsl" = true)
    (hloc : -2 ^ 31 ≤ D.uniformLocation "mvp" ∧ D.uniformLocation "mvp" < 2 ^ 31) :
    uploads (callsSince g
        (render D ⟨Real.cos, Real.sin, Real.pi⟩ (on_axis_value_change Y_AXIS t w) g).2)
      = [(toGLint w.m_Mvp, GL_FALSE,
          List.ofFn (compute_mvp ⟨Real.cos, Real.sin, Real.pi⟩ (fun _ => 0) 0 t 0))] ∧
    (render D ⟨Real.cos, Real.sin, Real.pi⟩
        (on_axis_value_change Y_AXIS t (realize D w g).1) (realize D w g).2).1 = true ∧
    uploads (callsSince (realize D w g).2
        (render D ⟨Real.cos, Real.sin, Real.pi⟩
          (on_axis_value_change Y_AXIS t (realize D w g).1) (realize D w g).2).2)
      = [(D.uniformLocation "mvp", GL_FALSE,
          List.ofFn (compute_mvp ⟨Real.cos, Real.sin, Real.pi⟩ (fun _ => 0) 0 t 0))] ∧
    compute_mvp ⟨Real.cos, Real.sin, Real.pi⟩ (fun _ => 0) 0 t 0 (cm 0 0)
      = Real.cos (t * (Real.pi / 180)) ∧
    compute_mvp ⟨Real.cos, Real.sin, Real.pi⟩ (fun _ => 0) 0 t 0 (cm 2 0)
      = Real.sin (t * (Real.pi / 180)) ∧
    (List.ofFn (compute_mvp ⟨Real.cos, Real.sin, Real.pi⟩ (fun _ => 0) 0 t 0))[0]?
      = some (Real.cos (t * (Real.pi / 180))) ∧
    (List.ofFn (compute_mvp ⟨Real.cos, Real.sin, Real.pi⟩ (fun _ => 0) 0 t 0))[2]?
      = some (Real.sin (t * (Real.pi / 180))) := by
  have hr : (realize D w g).1.m_Mvp = toGLuint (D.uniformLocation "mvp") ∧
      (realize D w g).1.m_RotationAngles = [0, 0, 0] := by
    obtain ⟨vsrc, fsrc, -, -, hs⟩ :=
      init_shaders_success D "/glarea/v.glsl" "/glarea/f.glsl" (init_buffers D w g).1
        (init_buffers D w g).2 hok
    have hre : realize D w g = init_shaders D "/glarea/v.glsl" "/glarea/f.glsl"
        (init_buffers D w g).1 (init_buffers D w g).2 := by
      simp [realize, hctx]
    rw [hre, hs]
    simp [init_buffers_eq, hangles, N_AXIS]
  have hm : compute_mvp ⟨Real.cos, Real.sin, Real.pi⟩ (fun _ => 0) 0 t 0 =
      ![Real.cos (t * (Real.pi / 180)), 0, Real.sin (t * (Real.pi / 180)), 0,
        0, 1, 0, 0,
        -Real.sin (t * (Real.pi / 180)), 0, Real.cos (t * (Real.pi / 180)), 0,
        0, 0, 0, 1] := by
    rw [compute_mvp_values]
    simp
  have hcalls := render_calls D ⟨Real.cos, Real.sin, Real.pi⟩
    (on_axis_value_change Y_AXIS t (realize D w g).1) (realize D w g).2 hctx
  have hcalls0 := render_calls D ⟨Real.cos, Real.sin, Real.pi⟩
    (on_axis_value_change Y_AXIS t w) g hctx
  refine ⟨?_, hcalls.1, ?_, ?_, ?_, ?_, ?_⟩
  · rw [callsSince_append _ _ _ hcalls0.2]
    simp [uploads, on_axis_value_change, hangles, N_AXIS, X_AXIS, Y_AXIS, Z_AXIS]
  · rw [callsSince_append _ _ _ hcalls.2]
    simp [uploads, on_axis_value_change, hr.1, hr.2, toGLint_toGLuint _ hloc, X_AXIS, Y_AXIS,
      Z_AXIS]
  · rw [hm]; rfl
  · rw [hm]; rfl
  · rw [hm]; rfl
  · rw [hm]; rfl

/-- C3 at the input of the specification: `t = 45` degrees. -/
theorem render_uploads_Y_rotation_witness :
    (Example_GLArea.construct : Example_GLArea ℝ).m_RotationAngles = List.replicate N_AXIS 0 ∧
    workingDriver.context_error = false ∧
    shadersSucceed workingDriver "/glarea/v.glsl" "/glarea/f.glsl" = true ∧
    (-2 ^ 31 ≤ workingDriver.uniformLocation "mvp" ∧
      workingDriver.uniformLocation "mvp" < 2 ^ 31) ∧
    uploads (callsSince (realize workingDriver Example_GLArea.construct GLState.fresh).2
        (render workingDriver ⟨Real.cos, Real.sin, Real.pi⟩
          (on_axis_value_change Y_AXIS 45
            (realize workingDriver Example_GLArea.construct GLState.fresh).1)
          (realize workingDriver Example_GLArea.construct GLState.fresh).2).2)
      = [(7, GL_FALSE,
          List.ofFn (compute_mvp ⟨Real.cos, Real.sin, Real.pi⟩ (fun _ => 0) 0 45 0))] ∧
    (List.ofFn (compute_mvp ⟨Real.cos, Real.sin, Real.pi⟩ (fun _ => 0) 0 45 0))[0]?
      = some (Real.cos (45 * (Real.pi / 180))) ∧
    (List.ofFn (compute_mvp ⟨Real.cos, Real.sin, Real.pi⟩ (fun _ => 0) 0 45 0))[2]?
      = some (Real.sin (45 * (Real.pi / 180))) :=
  have h := render_uploads_Y_rotation workingDriver Example_GLArea.construct GLState.fresh 45
    rfl rfl (by decide) (by decide)
  ⟨rfl, rfl, by decide, by decide, h.2.2.1, h.2.2.2.2.2.1, h.2.2.2.2.2.2⟩

end GLAreaDemo
